import Mathlib

/-!
Shallow embedding of the approval-queue / execution-pipeline core of the
`amazonmcp` backend, together with proofs about the claims of its
specification.

Embedding conventions:
* Python `float` arithmetic is modelled with exact rationals (`ℚ`); decimal
  literals such as `1.2`, `0.7`, `0.01` become the rationals `12/10`, `7/10`,
  `1/100`. Python `round(x, 2)` is modelled by `round2` below (rounding to a
  multiple of `1/100`).
* A Python value obtained with `dict.get(k)` is modelled as an `Option`
  (or as `""` / `0` defaults where the source immediately applies one).
  Python `a or b` on such values (which tests *truthiness*: `None`, `""`,
  `0`, `[]` are falsy) is modelled by the `orS` / `orQ` helpers.
* `async` adapter calls that may raise are modelled as functions into
  `Except String α`: `.error e` is a raised exception with text `e`.
-/

/-- Truthiness of an optional rational, as Python sees it: `None` and `0`
are falsy. -/
def qTruthy : Option ℚ → Bool
  | none => false
  | some q => q ≠ 0

/-- Truthiness of an optional string: `None` and `""` are falsy. -/
def sTruthy : Option String → Bool
  | none => false
  | some s => s ≠ ""

/-- Python `a or b` for optional rationals. -/
def orQ (a b : Option ℚ) : Option ℚ := if qTruthy a then a else b

/-- Python `a or b` for optional strings. -/
def orS (a b : Option String) : Option String := if sTruthy a then a else b

/-- Python `round(x, 2)`: round to a multiple of `1/100`.  (Modelled with
exact rationals; ties round half-up rather than float half-even, which is
irrelevant for every property proved below.) -/
def round2 (q : ℚ) : ℚ := (round (q * 100) : ℤ) / 100

/-- Python `round(x, 1)`: round to a multiple of `1/10`. -/
def round1 (q : ℚ) : ℚ := (round (q * 10) : ℤ) / 10

/-- A rational that is an exact multiple of one cent (`1/100`). -/
def isCent (q : ℚ) : Prop := ∃ n : ℤ, q = n / 100

/- ── Optimizer Service (`optimizer_service.py`, `_calculate_adjustments`) ── -/

/-- Rule parameters of `OptimizerService._calculate_adjustments`. -/
structure Rule where
  targetAcos : ℚ
  minBid : ℚ
  maxBid : ℚ
  bidStep : ℚ
  minClicks : ℤ
  deriving Repr, DecidableEq

/-- One target dict as consumed by `_calculate_adjustments`, after the
field-extraction prelude of the loop body (lines 141-152 of
`optimizer_service.py`):
`targetId` is `target.get("targetId") or target.get("id")` with `""` for a
missing id; `bid` is the `_safe_float` of the (possibly nested) raw bid with
default `0`; `clicks` is `_safe_int(target.get("clicks"), 0)`; `spend` and
`sales` are the `_safe_float` of their `or`-chains; `state` is the raw
`target.get("state", "")` (upper-casing happens in `calcTarget`). -/
structure Target where
  targetId : String
  bid : ℚ
  clicks : ℤ
  spend : ℚ
  sales : ℚ
  state : String
  deriving Repr, DecidableEq

/-- Reason attached to a proposed bid adjustment, one constructor per
f-string in the source, carrying the values interpolated there. -/
inductive Reason
  | highAcos (acos target : ℚ)
  | slightlyAbove (acos target : ℚ)
  | roomToGrow (acos : ℚ)
  | noSales (clicks : ℤ) (spend : ℚ)
  deriving Repr, DecidableEq

/-- Direction of a recorded change, and also the counter (`increases` /
`decreases`) bumped inside the decision branches. -/
inductive Direction
  | increase
  | decrease
  deriving Repr, DecidableEq

/-- Outcome of the decision part of the loop body for one target:
`skip` is any `continue` that bumps `unchanged` before a branch was chosen;
`hold` is the `else: unchanged += 1; continue` of the in-band / no-spend
cases; `adjust nb r d` means the branch computed `new_bid = nb` with reason
`r` and bumped the counter `d`. -/
inductive Outcome
  | skip
  | hold
  | adjust (newBid : ℚ) (reason : Reason) (counter : Direction)
  deriving Repr, DecidableEq

/-- Decision part of the per-target loop body of `_calculate_adjustments`
(lines 153-201 of `optimizer_service.py`), before the
`abs(new_bid - current_bid) >= 0.01` emission filter. -/
def calcTarget (rule : Rule) (t : Target) : Outcome :=
  -- `state = target.get("state", "").upper()`
  -- `if state not in ("ENABLED", ""): unchanged += 1; continue`
  if t.state.toUpper ≠ "ENABLED" ∧ t.state.toUpper ≠ "" then .skip
  -- `if not target_id or current_bid <= 0: unchanged += 1; continue`
  else if t.targetId = "" ∨ t.bid ≤ 0 then .skip
  else if rule.minClicks ≤ t.clicks then
    if 0 < t.sales then
      -- `current_acos = spend / sales * 100` (inlined below)
      if t.spend / t.sales * 100 > rule.targetAcos * (12/10) then
        .adjust (max (t.bid - rule.bidStep) rule.minBid)
          (.highAcos (t.spend / t.sales * 100) rule.targetAcos) .decrease
      else if t.spend / t.sales * 100 > rule.targetAcos then
        .adjust (max (t.bid - rule.bidStep * (1/2)) rule.minBid)
          (.slightlyAbove (t.spend / t.sales * 100) rule.targetAcos) .decrease
      else if t.spend / t.sales * 100 < rule.targetAcos * (7/10) then
        .adjust (min (t.bid + rule.bidStep) rule.maxBid)
          (.roomToGrow (t.spend / t.sales * 100)) .increase
      else .hold
    else
      if 0 < t.spend then
        .adjust (max (t.bid - rule.bidStep) rule.minBid) (.noSales t.clicks t.spend) .decrease
      else .hold
  else .skip

/-- One entry of the `changes` list built by `_calculate_adjustments`. -/
structure BidChange where
  targetId : String
  currentBid : ℚ
  newBid : ℚ
  change : ℚ
  direction : Direction
  reason : Reason
  currentAcos : Option ℚ
  clicks : ℤ
  spend : ℚ
  sales : ℚ
  deriving Repr, DecidableEq

/-- Emission part of the loop body (lines 203-216): a change dict is
appended only when `abs(new_bid - current_bid) >= 0.01`; the recorded bids
are rounded to two decimals, and `current_acos` is recorded (rounded to one
decimal) only when it is truthy, i.e. defined and nonzero. -/
def emitChange (rule : Rule) (t : Target) : Option BidChange :=
  match calcTarget rule t with
  | .adjust nb _reason _d =>
    if 1/100 ≤ |nb - t.bid| then
      some
        { targetId := t.targetId
          currentBid := round2 t.bid
          newBid := round2 nb
          change := round2 (nb - t.bid)
          direction := if t.bid < nb then .increase else .decrease
          reason := _reason
          currentAcos :=
            if 0 < t.sales then
              let a := t.spend / t.sales * 100
              if a ≠ 0 then some (round1 a) else none
            else none
          clicks := t.clicks
          spend := round2 t.spend
          sales := round2 t.sales }
    else none
  | _ => none

/-- Whether the decision bumped the `unchanged` counter. -/
def countsUnchanged : Outcome → Bool
  | .skip => true
  | .hold => true
  | .adjust _ _ _ => false

/-- Whether the decision bumped the `increases` counter. -/
def countsIncrease : Outcome → Bool
  | .adjust _ _ .increase => true
  | _ => false

/-- Whether the decision bumped the `decreases` counter. -/
def countsDecrease : Outcome → Bool
  | .adjust _ _ .decrease => true
  | _ => false

/-- The `summary` dict of `_calculate_adjustments`. -/
structure AdjustSummary where
  totalAnalyzed : ℕ
  increases : ℕ
  decreases : ℕ
  unchanged : ℕ
  totalChanges : ℕ
  targetAcos : ℚ
  deriving Repr, DecidableEq

/-- Return value of `_calculate_adjustments`. -/
structure AdjustResult where
  analyzed : ℕ
  changes : List BidChange
  summary : AdjustSummary
  deriving Repr, DecidableEq

/-- The whole of `_calculate_adjustments`.  The source iterates groups
(`all_targets`) and, inside each, the `_extract_targets` list; since the
loop body touches the accumulators only by appending / incrementing and
never reads them, the double loop is the flattened per-target map below. -/
def calculateAdjustments (rule : Rule) (allTargets : List (List Target)) : AdjustResult :=
  let ts := allTargets.flatten
  let changes := ts.filterMap (emitChange rule)
  { analyzed := ts.length
    changes := changes
    summary :=
      { totalAnalyzed := ts.length
        increases := ts.countP (fun t => countsIncrease (calcTarget rule t))
        decreases := ts.countP (fun t => countsDecrease (calcTarget rule t))
        unchanged := ts.countP (fun t => countsUnchanged (calcTarget rule t))
        totalChanges := changes.length
        targetAcos := rule.targetAcos } }

/-- Default rule parameters of `OptimizerService.optimize_bids`:
`target_acos=30.0, min_bid=0.02, max_bid=100.0, bid_step=0.10, min_clicks=10`. -/
def ruleDefault : Rule :=
  { targetAcos := 30, minBid := 2/100, maxBid := 100, bidStep := 1/10, minClicks := 10 }

/- ── Plan payloads (`campaign_creation_service.py`) ─────────────────── -/

/-- The `campaign` object of an AI campaign plan.  Alias keys of the source
(`adProduct`/`ad_product`/`type`, `dailyBudget`/`daily_budget`,
`defaultBid`) are collapsed into one optional field each. -/
structure CampaignPlan where
  name : Option String := none
  adProduct : Option String := none
  targetingType : Option String := none
  state : Option String := none
  dailyBudget : Option ℚ := none
  defaultBid : Option ℚ := none
  asin : Option String := none
  deriving Repr, DecidableEq

/-- One keyword of an ad-group plan (`text`/`keyword` and
`match_type`/`matchType` and `suggested_bid`/`suggestedBid`/`bid`
collapsed). -/
structure KeywordPlan where
  text : Option String := none
  matchType : Option String := none
  bid : Option ℚ := none
  deriving Repr, DecidableEq

/-- One ad-group object of a plan (`defaultBid`/`default_bid` collapsed). -/
structure AdGroupPlan where
  name : Option String := none
  defaultBid : Option ℚ := none
  keywords : List KeywordPlan := []
  deriving Repr, DecidableEq

/-- The `ad` object of a plan. -/
structure AdPlan where
  asin : Option String := none
  name : Option String := none
  deriving Repr, DecidableEq

/-- A full campaign creation plan as consumed by
`CampaignCreationService.execute_plan`.  `campaign = none` models both a
missing and an empty (falsy) `plan.get("campaign", {})`. -/
structure Plan where
  campaign : Option CampaignPlan := none
  adGroups : List AdGroupPlan := []
  ad : Option AdPlan := none
  deriving Repr, DecidableEq

/- ── Adapter payloads and responses ─────────────────────────────────── -/

/-- Campaign payload built by `_build_campaign_payload`. -/
structure CampaignPayload where
  name : String
  adProduct : String
  targetingType : String
  state : String
  dailyBudget : ℚ
  deriving Repr, DecidableEq

/-- Ad-group payload built in `execute_plan`. -/
structure AdGroupPayload where
  campaignId : String
  name : String
  state : String
  defaultBid : Option ℚ
  deriving Repr, DecidableEq

/-- Product-ad payload built in `execute_plan`. -/
structure AdPayload where
  adGroupId : String
  asin : String
  state : String
  name : Option String
  deriving Repr, DecidableEq

/-- Keyword-target payload built in `execute_plan`. -/
structure TargetPayload where
  adGroupId : String
  expression : String
  expressionType : String
  matchType : String
  bid : ℚ
  deriving Repr, DecidableEq

/-- Opaque raw result of a generic adapter call; the pipeline never looks
inside it, it only stores it. -/
structure ToolResult where
  raw : String
  deriving Repr, DecidableEq

/-- Harvest request sent by `_harvest_create_new`. -/
structure HarvestRequest where
  sourceCampaignId : String
  salesThreshold : ℚ
  acosThreshold : Option ℚ
  deriving Repr, DecidableEq

/-- One keyword dict as fed to `_negate_keywords_in_source`: `text` is the
resolved `kw.get("keyword") or kw.get("text", "")`, with `""` for no usable
text. -/
structure NegKw where
  text : String
  deriving Repr, DecidableEq

/-- Response of the platform harvest-create call, modelled after the
`_extract_target_id` / `_extract_keyword_count` / `_extract_keywords`
normalisation of the raw dict. -/
structure HarvestResp where
  targetCampaignId : Option String := none
  keywordsHarvested : ℕ := 0
  keywords : List NegKw := []
  deriving Repr, DecidableEq

/-- One candidate target dict from the source auto campaign, after the
key-alias normalisation of `_harvest_to_existing` step 2: `text` is the
`keyword`/`keywordText`/`expression`/`text` chain with `""` for none;
`sales` and `acos` are their `or 0` chains; numeric values are already
numbers, so the `float(...)`-failure skip of the source cannot fire. -/
structure Candidate where
  text : String := ""
  sales : ℚ := 0
  acos : ℚ := 0
  clicks : ℚ := 0
  bid : Option ℚ := none
  spend : Option ℚ := none
  matchType : Option String := none
  deriving Repr, DecidableEq

/-- One qualified keyword dict built in `_harvest_to_existing` step 2. -/
structure QualifiedKw where
  keyword : String
  matchType : String
  bid : Option ℚ
  clicks : ℚ
  sales : ℚ
  spend : Option ℚ
  acos : ℚ
  deriving Repr, DecidableEq

/-- One entry of the `targets` body of a
`campaign_management-create_target` call (both the harvest step 4 entries
and the negative-keyword entries; the latter may carry an unresolved
`adGroupId`). -/
structure HTargetEntry where
  adGroupId : Option String
  campaignId : String
  keyword : String
  matchType : String
  state : String
  adProduct : String
  bid : Option ℚ := none
  deriving Repr, DecidableEq

/-- Mutation-command arguments (`mcp_payload["arguments"]`), one optional
field per key the pipeline and the harvest dispatch read. -/
structure MCPArgs where
  sourceCampaignId : Option String := none
  salesThreshold : Option ℚ := none
  acosThreshold : Option ℚ := none
  targetMode : Option String := none
  targetCampaignId : Option String := none
  matchType : Option String := none
  negateInSource : Option Bool := none
  plan : Option Plan := none
  deriving Repr, DecidableEq

/-- The External Adapter (MCP client) at the granularity the core uses it.
Each method returns `Except String α`: `.error e` models a raised
exception with text `e`.  Query and create responses are modelled after
the id / list extraction the services apply to the raw dicts:
`createCampaign`, `createAdGroup` and `createAd` yield the `_extract_id`
result, `createTarget` the collected truthy `targetId`s, `queryAdGroups`
the per-group `get("adGroupId") or get("id")` values. -/
structure Adapter where
  callTool : String → MCPArgs → Except String ToolResult
  createCampaign : CampaignPayload → Except String (Option String)
  createAdGroup : AdGroupPayload → Except String (Option String)
  createAd : AdPayload → Except String (Option String)
  createTarget : List TargetPayload → Except String (List String)
  queryTargets : String → Except String (List Candidate)
  queryAdGroups : String → Except String (List (Option String))
  createHarvest : HarvestRequest → Except String HarvestResp
  createTargetsRaw : List HTargetEntry → Except String ToolResult

/- ── Harvest Service (`harvest_service.py`) ─────────────────────────── -/

/-- Result dict of a harvest run.  Keys absent from a given return site of
the source keep their default here.  `keywords` holds the qualified
keyword dicts of the existing-campaign mode; `rawKeywords` the raw
platform keywords of the new-campaign mode (both live under the single
`"keywords"` key in the source). -/
structure HarvestResult where
  status : String
  mode : String
  sourceCampaignId : String
  targetCampaignId : Option String := none
  targetAdGroupId : Option String := none
  keywordsHarvested : ℕ := 0
  keywordsNegated : ℕ := 0
  keywords : List QualifiedKw := []
  rawKeywords : List NegKw := []
  message : Option String := none
  error : Option String := none
  createResult : Option ToolResult := none
  rawResult : Option HarvestResp := none
  deriving Repr, DecidableEq

/-- The `_negate_keywords_in_source` helper: best effort, every failure
path (adapter exception, no ad groups) is swallowed and reported as `0`. -/
def negateKeywordsInSource (adp : Adapter) (srcId : String) (keywords : List NegKw) : ℕ :=
  if keywords.isEmpty then 0
  else
    match adp.queryAdGroups srcId with
    | .error _ => 0
    | .ok agList =>
      match agList with
      | [] => 0
      | gid :: _ =>
        -- one negative-exact entry per keyword with usable text
        let negTargets : List HTargetEntry := keywords.filterMap (fun kw =>
          if kw.text = "" then none
          else some
            { adGroupId := gid, campaignId := srcId, keyword := kw.text
              matchType := "NEGATIVE_EXACT", state := "ENABLED"
              adProduct := "SPONSORED_PRODUCTS" })
        if negTargets.isEmpty then negTargets.length
        else
          match adp.createTargetsRaw negTargets with
          | .error _ => 0
          | .ok _ => negTargets.length

/-- Threshold filter of `_harvest_to_existing` step 2 (one candidate at a
time).  An `acos_threshold` of `0` (or `None`) disables the ACOS filter,
because the source guards it with the truthiness test
`if acos_threshold and float(acos) > acos_threshold`. -/
def qualifyCandidate (salesTh : ℚ) (acosTh : Option ℚ) (matchTy : Option String)
    (t : Candidate) : Option QualifiedKw :=
  if t.text = "" then none
  else if t.sales < salesTh then none
  else if qTruthy acosTh ∧ acosTh.getD 0 < t.acos then none
  else some
    { keyword := t.text
      matchType := (orS matchTy (some (t.matchType.getD "BROAD"))).getD ""
      bid := t.bid
      clicks := t.clicks
      sales := t.sales
      spend := t.spend
      acos := t.acos }

/-- Happy path of `_harvest_to_existing` (inside its `try`); a raised
adapter exception is the `.error` case that the surrounding handler turns
into the error dict. -/
def harvestToExistingE (adp : Adapter) (srcId tgtId : String) (tgtAgIn : Option String)
    (salesTh : ℚ) (acosTh : Option ℚ) (matchTy : Option String) (negate : Bool) :
    Except String HarvestResult := do
  -- Step 1-2: candidates from the source campaign, filtered by thresholds
  let targetList ← adp.queryTargets srcId
  let qualified := targetList.filterMap (qualifyCandidate salesTh acosTh matchTy)
  if qualified.isEmpty then
    return { status := "success", mode := "existing_campaign", sourceCampaignId := srcId
             targetCampaignId := some tgtId, keywordsHarvested := 0, keywordsNegated := 0
             keywords := [], message := some "No keywords met the harvest thresholds." }
  -- Step 3: resolve the destination ad group if not supplied
  let tgtAg ←
    if sTruthy tgtAgIn then pure tgtAgIn
    else do
      let ags ← adp.queryAdGroups tgtId
      pure (match ags with | [] => tgtAgIn | gid :: _ => gid)
  if ¬ sTruthy tgtAg then
    return { status := "error", mode := "existing_campaign", sourceCampaignId := srcId
             targetCampaignId := some tgtId
             error := some "No ad group found in the target manual campaign. Create an ad group first." }
  -- Step 4: create the qualified keywords as targets in the destination
  let entries : List HTargetEntry := qualified.map (fun kw =>
    { adGroupId := tgtAg, campaignId := tgtId, keyword := kw.keyword
      matchType := kw.matchType.toUpper, state := "ENABLED"
      adProduct := "SPONSORED_PRODUCTS"
      bid := if qTruthy kw.bid then kw.bid else none })
  let createResult ← adp.createTargetsRaw entries
  -- Step 5: negate in source (best effort, never raises)
  let negated := if negate then
      negateKeywordsInSource adp srcId (qualified.map (fun q => ⟨q.keyword⟩)) else 0
  return { status := "success", mode := "existing_campaign", sourceCampaignId := srcId
           targetCampaignId := some tgtId, targetAdGroupId := tgtAg
           keywordsHarvested := qualified.length, keywordsNegated := negated
           keywords := qualified, createResult := some createResult }

/-- The whole of `_harvest_to_existing` including its exception handler:
any raised exception becomes an `"error"`-status result dict — the method
itself never raises. -/
def harvestToExisting (adp : Adapter) (srcId tgtId : String) (tgtAgIn : Option String)
    (salesTh : ℚ) (acosTh : Option ℚ) (matchTy : Option String) (negate : Bool) :
    HarvestResult :=
  match harvestToExistingE adp srcId tgtId tgtAgIn salesTh acosTh matchTy negate with
  | .ok r => r
  | .error e =>
    { status := "error", mode := "existing_campaign", sourceCampaignId := srcId
      targetCampaignId := some tgtId, error := some e }

/-- The whole of `_harvest_create_new` including its exception handler. -/
def harvestCreateNew (adp : Adapter) (srcId : String) (salesTh : ℚ)
    (acosTh : Option ℚ) (negate : Bool) : HarvestResult :=
  let req : HarvestRequest :=
    { sourceCampaignId := srcId, salesThreshold := salesTh, acosThreshold := acosTh }
  match adp.createHarvest req with
  | .ok result =>
    let negated := if negate ∧ ¬ result.keywords.isEmpty then
        negateKeywordsInSource adp srcId result.keywords else 0
    { status := "success", mode := "new_campaign", sourceCampaignId := srcId
      targetCampaignId := result.targetCampaignId
      keywordsHarvested := result.keywordsHarvested
      keywordsNegated := negated, rawKeywords := result.keywords
      rawResult := some result }
  | .error e =>
    { status := "error", mode := "new_campaign", sourceCampaignId := srcId
      error := some e }

/-- `HarvestService.execute_harvest`: dispatch between the two modes.  The
existing-campaign branch is taken only when `target_mode == "existing"`
*and* `target_campaign_id` is truthy. -/
def executeHarvest (adp : Adapter) (srcId : String) (salesTh : ℚ) (acosTh : Option ℚ)
    (mode : String) (tgtId : Option String) (tgtAg : Option String)
    (matchTy : Option String) (negate : Bool) : HarvestResult :=
  if mode = "existing" ∧ sTruthy tgtId then
    harvestToExisting adp srcId (tgtId.getD "") tgtAg salesTh acosTh matchTy negate
  else
    harvestCreateNew adp srcId salesTh acosTh negate

/- ── Campaign Creation Service (`campaign_creation_service.py`) ─────── -/

/-- The `results` dict returned by `execute_plan`. -/
structure PlanResults where
  campaignId : Option String := none
  adGroupIds : List String := []
  adIds : List String := []
  targetIds : List String := []
  errors : List String := []
  deriving Repr, DecidableEq

/-- One external call issued during plan execution, in issue order (the
trace makes the sequencing of the composite executor provable). -/
inductive CallEv
  | campaign (p : CampaignPayload)
  | adGroup (p : AdGroupPayload)
  | adCreate (p : AdPayload)
  | targets (p : List TargetPayload)
  deriving Repr, DecidableEq

/-- `CampaignCreationService._build_campaign_payload`. -/
def buildCampaignPayload (c : CampaignPlan) : CampaignPayload :=
  { name := c.name.getD "New Campaign"
    adProduct := (orS c.adProduct (some "SPONSORED_PRODUCTS")).getD ""
    targetingType := (orS c.targetingType (some "manual")).getD ""
    state := c.state.getD "enabled"
    dailyBudget := (orQ c.dailyBudget (some 50)).getD 0 }

/-- Contribution of one ad-group iteration to the `results` lists. -/
structure GroupDelta where
  agIds : List String := []
  adIds : List String := []
  tgtIds : List String := []
  errors : List String := []
  deriving Repr, DecidableEq

/-- Keyword-target payloads built for one ad group (step 4 of the loop
body): keywords without usable text are dropped, the match type falls back
to `"broad"` unless exact/phrase/broad, and a falsy bid value falls back
to `0.5`. -/
def buildTargetPayloads (agid : String) (agBid : Option ℚ) (kws : List KeywordPlan) :
    List TargetPayload :=
  kws.filterMap (fun kw =>
    if ¬ sTruthy kw.text then none
    else
      let mt := ((orS kw.matchType (some "broad")).getD "").toLower
      let bidVal := orQ kw.bid agBid
      some
        { adGroupId := agid
          expression := kw.text.getD ""
          expressionType := "keyword"
          matchType := if mt = "exact" ∨ mt = "phrase" ∨ mt = "broad" then mt else "broad"
          bid := if qTruthy bidVal then bidVal.getD 0 else 1/2 })

/-- Body of the per-ad-group loop of `execute_plan` (lines 81-149 of the
source): create the ad group; on success create the product ad (when an
ASIN is available) and the keyword targets, collecting errors without
raising. -/
def processAdGroup (adp : Adapter) (plan : Plan) (campaign : CampaignPlan)
    (cid : String) (ag : AdGroupPlan) : GroupDelta × List CallEv :=
  let agBid := orQ ag.defaultBid none
  let agPayload : AdGroupPayload :=
    { campaignId := cid, name := ag.name.getD "Ad Group", state := "enabled"
      defaultBid := agBid }
  match adp.createAdGroup agPayload with
  | .error e =>
    ({ errors := ["Ad group creation failed: " ++ e] }, [.adGroup agPayload])
  | .ok none =>
    ({ errors := ["Ad group created but no ID returned"] }, [.adGroup agPayload])
  | .ok (some agid) =>
    -- Step 3: product ad, only when an ASIN is available
    let adAsin := orS (plan.ad.bind (fun a => a.asin)) campaign.asin
    let adStep : List String × List String × List CallEv :=
      if sTruthy adAsin then
        let adPayload : AdPayload :=
          { adGroupId := agid, asin := adAsin.getD "", state := "enabled"
            name := if sTruthy (plan.ad.bind (fun a => a.name)) then
                      plan.ad.bind (fun a => a.name) else none }
        match adp.createAd adPayload with
        | .ok (some adid) => ([adid], [], [.adCreate adPayload])
        | .ok none => ([], [], [.adCreate adPayload])
        | .error e => ([], ["Ad creation failed: " ++ e], [.adCreate adPayload])
      else ([], [], [])
    -- Step 4: keyword targets
    let tps := buildTargetPayloads agid agBid ag.keywords
    let tgtStep : List String × List String × List CallEv :=
      if ag.keywords.isEmpty then ([], [], [])
      else if tps.isEmpty then ([], [], [])
      else
        match adp.createTarget tps with
        | .ok ids => (ids, [], [.targets tps])
        | .error e => ([], ["Target creation failed: " ++ e], [.targets tps])
    ({ agIds := [agid], adIds := adStep.1, tgtIds := tgtStep.1
       errors := adStep.2.1 ++ tgtStep.2.1 },
     .adGroup agPayload :: (adStep.2.2 ++ tgtStep.2.2))

/-- The ad-group list actually iterated: an empty plan list is replaced by
one default ad group. -/
def effectiveAdGroups (campaign : CampaignPlan) (plan : Plan) : List AdGroupPlan :=
  if plan.adGroups.isEmpty then
    [{ name := some "Default Ad Group", defaultBid := some (campaign.defaultBid.getD (1/2))
       keywords := [] }]
  else plan.adGroups

/-- `CampaignCreationService.execute_plan`, with the trace of adapter
calls.  The ad-group loop of the source only appends to the accumulator
lists and never reads them, so it is rendered as the per-group map whose
deltas are concatenated in list order. -/
def executePlanT (adp : Adapter) (plan : Plan) : PlanResults × List CallEv :=
  match plan.campaign with
  | none => ({ errors := ["Campaign data is required"] }, [])
  | some campaign =>
    let cpay := buildCampaignPayload campaign
    match adp.createCampaign cpay with
    | .error e =>
      ({ errors := ["Campaign creation failed: " ++ e] }, [.campaign cpay])
    | .ok none =>
      -- `campaign_payload.get("campaignId")` can never supply one: the
      -- payload is built without that key.
      ({ errors := ["Campaign created but no ID returned"] }, [.campaign cpay])
    | .ok (some cid) =>
      let groups := effectiveAdGroups campaign plan
      let deltas := groups.map (processAdGroup adp plan campaign cid)
      ({ campaignId := some cid
         adGroupIds := (deltas.map (fun d => d.1.agIds)).flatten
         adIds := (deltas.map (fun d => d.1.adIds)).flatten
         targetIds := (deltas.map (fun d => d.1.tgtIds)).flatten
         errors := (deltas.map (fun d => d.1.errors)).flatten },
       .campaign cpay :: (deltas.map (fun d => d.2)).flatten)

/-- `execute_plan` without the trace. -/
def executePlan (adp : Adapter) (plan : Plan) : PlanResults :=
  (executePlanT adp plan).1

/- ── Approvals Router (`routers/approvals.py`) ──────────────────────── -/

/-- A change record's mutation command (`mcp_payload`): operation name
(`mcp_payload.get("tool", "")`, with `""` for a missing key) and
arguments. -/
structure MCPPayload where
  tool : String := ""
  args : MCPArgs := {}
  deriving Repr, DecidableEq

/-- The `apply_result` written back onto a change: the raw result of a
single adapter call, or the folded result of one of the two composite
executors. -/
inductive ApplyResult
  | tool (r : ToolResult)
  | harvest (h : HarvestResult)
  | plan (p : PlanResults)
  deriving Repr, DecidableEq

/-- A persisted change record, restricted to the fields the approval-queue
and pipeline operations read or write (the display-only columns —
entity/campaign names, provenance, confidence and the like — are carried
through all operations untouched and are omitted).  Timestamps are opaque
naturals. -/
structure Change where
  id : String
  credentialId : String := ""
  status : String := "pending"
  reviewedAt : Option ℕ := none
  reviewNote : Option String := none
  appliedAt : Option ℕ := none
  applyResult : Option ApplyResult := none
  errorMessage : Option String := none
  mcpPayload : MCPPayload := {}
  batchId : Option String := none
  deriving Repr, DecidableEq

/-- One element of the `results` list returned by the apply endpoint. -/
structure ResultEntry where
  id : String
  status : String
  error : Option String := none
  deriving Repr, DecidableEq

/-- One `ActivityLog` row, restricted to the action tag. -/
structure LogEntry where
  action : String
  deriving Repr, DecidableEq

/-- Body of the per-change loop of `apply_approved_changes` (lines 336-379):
dispatch on the operation name, mark the change `applied` or `failed`, and
build its result entry.  The two composite executors catch their own
exceptions and always return, so only the unknown-tool branch and a raised
generic adapter call can produce `failed`. -/
def applyOne (adp : Adapter) (now : ℕ) (c : Change) : Change × ResultEntry :=
  if c.mcpPayload.tool = "" ∨ c.mcpPayload.tool = "unknown" then
    ({ c with status := "failed", errorMessage := some "Unknown MCP tool in payload" },
     { id := c.id, status := "failed", error := some "Unknown tool" })
  else if c.mcpPayload.tool = "_harvest_execute" then
    ({ c with
        status := "applied"
        appliedAt := some now
        applyResult := some (.harvest (executeHarvest adp
          (c.mcpPayload.args.sourceCampaignId.getD "") (c.mcpPayload.args.salesThreshold.getD 1)
          c.mcpPayload.args.acosThreshold (c.mcpPayload.args.targetMode.getD "existing")
          c.mcpPayload.args.targetCampaignId none c.mcpPayload.args.matchType
          (c.mcpPayload.args.negateInSource.getD true))) },
     { id := c.id, status := "applied" })
  else if c.mcpPayload.tool = "_ai_campaign_create" then
    ({ c with
        status := "applied"
        appliedAt := some now
        applyResult := some (.plan (executePlan adp (c.mcpPayload.args.plan.getD {}))) },
     { id := c.id, status := "applied" })
  else
    match adp.callTool c.mcpPayload.tool c.mcpPayload.args with
    | .ok r =>
      ({ c with status := "applied", appliedAt := some now, applyResult := some (.tool r) },
       { id := c.id, status := "applied" })
    | .error e =>
      ({ c with status := "failed", errorMessage := some e },
       { id := c.id, status := "failed", error := some e })

/-- The apply loop over the selected (approved) changes: each change is
processed independently in list order; the loop body never reads the
accumulators, so it is the elementwise map below, with the `applied` /
`failed` counters recovered from the per-change entries. -/
def applyBatch (adp : Adapter) (now : ℕ) (cs : List Change) :
    List Change × ℕ × ℕ × List ResultEntry :=
  let pairs := cs.map (applyOne adp now)
  (pairs.map (fun p => p.1),
   (pairs.filter (fun p => p.2.status = "applied")).length,
   (pairs.filter (fun p => p.2.status = "failed")).length,
   pairs.map (fun p => p.2))

/-- Errors raised by `review_change`, in source order: unknown id (HTTP
404), record not pending (HTTP 400 `"Change is already <status>"`), and a
bad action verb (HTTP 400). -/
inductive ReviewErr
  | notFound
  | invalidState (current : String)
  | badAction
  deriving Repr, DecidableEq

/-- Replace the first record with the given id (the store's primary key is
unique, so at most one row matches). -/
def updateById (store : List Change) (cid : String) (c' : Change) : List Change :=
  match store with
  | [] => []
  | c :: rest => if c.id = cid then c' :: rest else c :: updateById rest cid c'

/-- `review_change`: approve or reject one pending change.  Returns the
(possibly updated) store, the activity-log rows written, and the response
or error; an error leaves the store untouched. -/
def reviewChange (now : ℕ) (store : List Change) (cid : String) (action : String)
    (note : Option String) : List Change × List LogEntry × Except ReviewErr (String × String) :=
  match store.find? (fun c => c.id = cid) with
  | none => (store, [], .error .notFound)
  | some c =>
    if c.status ≠ "pending" then (store, [], .error (.invalidState c.status))
    else if action ≠ "approve" ∧ action ≠ "reject" then (store, [], .error .badAction)
    else
      let newStatus := if action = "approve" then "approved" else "rejected"
      let c' := { c with status := newStatus, reviewedAt := some now, reviewNote := note }
      (updateById store cid c',
       [{ action := "change_" ++ action ++ "d" }],
       .ok (c.id, newStatus))

/-- Errors raised by `batch_review`: bad action verb (HTTP 400, checked
first) and no pending change among the ids (HTTP 404). -/
inductive BatchErr
  | badAction
  | noPending
  deriving Repr, DecidableEq

/-- Predicate selecting the records `batch_review` transitions. -/
def batchSelected (cids : List String) (c : Change) : Bool :=
  c.id ∈ cids ∧ c.status = "pending"

/-- `batch_review`: approve or reject every *pending* record among the
ids; raises 404 when none of them is pending; writes one combined
activity-log row. -/
def batchReview (now : ℕ) (store : List Change) (cids : List String) (action : String)
    (note : Option String) : List Change × List LogEntry × Except BatchErr (ℕ × String) :=
  if action ≠ "approve" ∧ action ≠ "reject" then (store, [], .error .badAction)
  else
    let selected := store.filter (batchSelected cids)
    if selected.isEmpty then (store, [], .error .noPending)
    else
      let newStatus := if action = "approve" then "approved" else "rejected"
      (store.map (fun c =>
        if batchSelected cids c then
          { c with status := newStatus, reviewedAt := some now, reviewNote := note }
        else c),
       [{ action := "batch_change_" ++ action ++ "d" }],
       .ok (selected.length, newStatus))

/-- Errors raised by `apply_approved_changes` before the loop: neither
`change_ids` nor `batch_id` supplied (HTTP 400), and no approved change
matching the selection (HTTP 404).  (Credential resolution, which can also
404, is an external-collaborator step modelled as always succeeding.) -/
inductive ApplyErr
  | badRequest
  | noApproved
  deriving Repr, DecidableEq

/-- Server-side selection of `apply_approved_changes`: only records with
`status = "approved"`, further filtered by the explicit id list (when
truthy — an empty list is falsy and falls through to `batch_id`) or by the
batch id. -/
def applySelected (ids : Option (List String)) (batch : Option String) (c : Change) : Bool :=
  c.status = "approved" ∧
    (if ids.getD [] ≠ [] then c.id ∈ ids.getD []
     else c.batchId = batch)

/-- Response of the apply endpoint: applied count, failed count, total,
per-change results. -/
structure ApplyResp where
  applied : ℕ
  failed : ℕ
  total : ℕ
  results : List ResultEntry
  deriving Repr, DecidableEq

/-- `apply_approved_changes`: select the approved changes, run the apply
loop over them in list order, write the updated records back and one
combined activity-log row. -/
def applyApprovedChanges (adp : Adapter) (now : ℕ) (store : List Change)
    (ids : Option (List String)) (batch : Option String) :
    List Change × List LogEntry × Except ApplyErr ApplyResp :=
  if ids.getD [] = [] ∧ ¬ sTruthy batch then (store, [], .error .badRequest)
  else
    let selected := store.filter (applySelected ids batch)
    if selected.isEmpty then (store, [], .error .noApproved)
    else
      let out := applyBatch adp now selected
      (store.map (fun c => if applySelected ids batch c then (applyOne adp now c).1 else c),
       [{ action := "changes_applied" }],
       .ok { applied := out.2.1, failed := out.2.2.1, total := selected.length
             results := out.2.2.2 })

/-- Errors raised by `delete_change`. -/
inductive DeleteErr
  | notFound
  | invalidState (current : String)
  deriving Repr, DecidableEq

/-- Remove the first record with the given id. -/
def removeById (store : List Change) (cid : String) : List Change :=
  match store with
  | [] => []
  | c :: rest => if c.id = cid then rest else c :: removeById rest cid

/-- `delete_change`: delete a record, only while pending or rejected. -/
def deleteChange (store : List Change) (cid : String) :
    List Change × Except DeleteErr String :=
  match store.find? (fun c => c.id = cid) with
  | none => (store, .error .notFound)
  | some c =>
    if c.status ≠ "pending" ∧ c.status ≠ "rejected" then
      (store, .error (.invalidState c.status))
    else (removeById store cid, .ok "deleted")

/-- The status transitions the specification allows (identity included:
a record not touched by an operation keeps its status). -/
def okTransition (a b : String) : Prop :=
  a = b ∨ (a = "pending" ∧ b = "approved") ∨ (a = "pending" ∧ b = "rejected")
    ∨ (a = "approved" ∧ b = "applied") ∨ (a = "approved" ∧ b = "failed")

/- ── Concrete fixtures used by example scenarios and witnesses ──────── -/

/-- Spec example scenario 1: bid 0.50, 20 clicks, spend 40, no sales. -/
def tEx1 : Target :=
  { targetId := "K1", bid := 1/2, clicks := 20, spend := 40, sales := 0, state := "ENABLED" }

/-- Spec example scenario 2: bid 1.00, 15 clicks, spend 10, sales 100. -/
def tEx2 : Target :=
  { targetId := "K2", bid := 1, clicks := 15, spend := 10, sales := 100, state := "ENABLED" }

/-- An enabled target whose current bid (200) already exceeds the default
`max_bid` of 100, with ACOS 100% (spend 100, sales 100). -/
def tOverMax : Target :=
  { targetId := "T1", bid := 200, clicks := 20, spend := 100, sales := 100, state := "ENABLED" }

/-- A target whose `state` key is missing (extracted as `""`), otherwise
identical to scenario 1 with bid 1. -/
def tEmptyState : Target :=
  { targetId := "T2", bid := 1, clicks := 20, spend := 40, sales := 0, state := "" }

/-- A target dict carrying neither `targetId` nor `id`, otherwise
identical to spec example scenario 1. -/
def tNoId : Target :=
  { targetId := "", bid := 1/2, clicks := 20, spend := 40, sales := 0, state := "ENABLED" }

/-- A paused target that the optimizer must skip. -/
def tPaused : Target :=
  { targetId := "T3", bid := 1, clicks := 20, spend := 40, sales := 0, state := "PAUSED" }

/-- An adapter whose calls all succeed, except that creating the ad group
named `"AG two"` raises `"boom"`. -/
def okAdapter : Adapter :=
  { callTool := fun _ _ => .ok ⟨"ok"⟩
    createCampaign := fun _ => .ok (some "C1")
    createAdGroup := fun p => if p.name = "AG two" then .error "boom" else .ok (some "G1")
    createAd := fun _ => .ok (some "AD1")
    createTarget := fun _ => .ok ["T1"]
    queryTargets := fun _ => .ok []
    queryAdGroups := fun _ => .ok [some "SAG1"]
    createHarvest := fun _ => .ok {}
    createTargetsRaw := fun _ => .ok ⟨"created"⟩ }

/-- Like `okAdapter` but the target query raises `"net down"`. -/
def failHarvestAdapter : Adapter :=
  { okAdapter with queryTargets := fun _ => .error "net down" }

/-- Like `okAdapter` but campaign creation raises `"campfail"`. -/
def failCampAdapter : Adapter :=
  { okAdapter with createCampaign := fun _ => .error "campfail" }

/-- Approved change with an ordinary single-call mutation command. -/
def cApply1 : Change :=
  { id := "c1", status := "approved",
    mcpPayload := { tool := "campaign_management-update_target" } }

/-- Approved change whose mutation command names the unknown operation. -/
def cApply2 : Change :=
  { id := "c2", status := "approved", mcpPayload := { tool := "unknown" } }

/-- A second approved single-call change. -/
def cApply3 : Change :=
  { id := "c3", status := "approved",
    mcpPayload := { tool := "campaign_management-update_campaign" } }

/-- A two-ad-group campaign plan; with `okAdapter`, ad group 2 of 2 fails. -/
def plan2 : Plan :=
  { campaign := some { name := some "Camp", dailyBudget := some 10, asin := some "B0TEST" }
    adGroups := [ { name := some "AG one", defaultBid := some (3/4),
                    keywords := [{ text := some "shoes" }] },
                  { name := some "AG two", defaultBid := some (3/4) } ]
    ad := some { asin := some "B0TEST" } }

/-- Approved campaign-bundle composite change carrying `plan2`. -/
def cPlan2Change : Change :=
  { id := "p1", status := "approved",
    mcpPayload := { tool := "_ai_campaign_create", args := { plan := some plan2 } } }

/-- Approved harvest-to-existing composite change. -/
def cHarvest : Change :=
  { id := "h1", status := "approved",
    mcpPayload := { tool := "_harvest_execute",
                    args := { sourceCampaignId := some "SRC", targetMode := some "existing",
                              targetCampaignId := some "TGT" } } }

/-- A pending change awaiting review. -/
def cPend : Change := { id := "A" }

/-- An already-approved change (not pending). -/
def cApproved : Change := { id := "B", status := "approved" }

/- ── Arithmetic lemmas about two-decimal rounding ───────────────────── -/

/-- Rounding to cents fixes exact cent values. -/
theorem round2_cent {q : ℚ} (h : isCent q) : round2 q = q := by
  obtain ⟨n, rfl⟩ := h
  have h100 : ((100 : ℚ)) ≠ 0 := by norm_num
  rw [round2, div_mul_cancel₀ _ h100, round_intCast]

/-- Rounding to cents is monotone. -/
theorem round2_mono {a b : ℚ} (h : a ≤ b) : round2 a ≤ round2 b := by
  have hr : round (a * 100) ≤ round (b * 100) := by
    rw [round_eq, round_eq]; exact Int.floor_mono (by linarith)
  rw [round2, round2]
  have : ((round (a * 100) : ℤ) : ℚ) ≤ ((round (b * 100) : ℤ) : ℚ) := by exact_mod_cast hr
  linarith

/-- Rounding to cents commutes with adding one cent. -/
theorem round2_add_cent (q : ℚ) : round2 (q + 1/100) = round2 q + 1/100 := by
  have : (q + 1/100) * 100 = q * 100 + 1 := by ring
  rw [round2, this, round_add_one, round2]
  push_cast
  ring

/-- Two values at least a cent apart stay at least a cent apart after
rounding both to cents. -/
theorem round2_abs_ge {a b : ℚ} (h : 1/100 ≤ |a - b|) :
    1/100 ≤ |round2 a - round2 b| := by
  rcases le_abs.mp h with h1 | h1
  · have hle : b + 1/100 ≤ a := by linarith
    have := round2_mono hle
    rw [round2_add_cent] at this
    exact le_abs.mpr (Or.inl (by linarith))
  · have hle : a + 1/100 ≤ b := by linarith
    have := round2_mono hle
    rw [round2_add_cent] at this
    exact le_abs.mpr (Or.inr (by linarith))

/-- Decidable equality for `Except`, used to evaluate concrete operation
results. -/
instance {ε α : Type} [DecidableEq ε] [DecidableEq α] : DecidableEq (Except ε α) := fun x y =>
  match x, y with
  | .ok a, .ok b =>
    if h : a = b then .isTrue (by rw [h]) else .isFalse (by intro hh; cases hh; exact h rfl)
  | .ok _, .error _ => .isFalse (by intro h; cases h)
  | .error _, .ok _ => .isFalse (by intro h; cases h)
  | .error e, .error f =>
    if h : e = f then .isTrue (by rw [h]) else .isFalse (by intro hh; cases hh; exact h rfl)

/- ── Inversion lemmas for the optimizer ─────────────────────────────── -/

/-- Every proposed new bid has one of the three clamped shapes of the
source's three adjusting branches. -/
theorem calcTarget_adjust_shape {rule : Rule} {t : Target} {nb : ℚ} {r : Reason} {d : Direction}
    (h : calcTarget rule t = .adjust nb r d) :
    nb = max (t.bid - rule.bidStep) rule.minBid ∨
    nb = max (t.bid - rule.bidStep * (1/2)) rule.minBid ∨
    nb = min (t.bid + rule.bidStep) rule.maxBid := by
  unfold calcTarget at h
  repeat' split at h
  all_goals simp_all

/-- An emitted change comes from an adjusting decision that passed the
one-cent emission filter, and records the rounded bids. -/
theorem emitChange_eq_some {rule : Rule} {t : Target} {c : BidChange}
    (h : emitChange rule t = some c) :
    ∃ nb r d, calcTarget rule t = .adjust nb r d ∧ 1/100 ≤ |nb - t.bid| ∧
      c.newBid = round2 nb ∧ c.currentBid = round2 t.bid := by
  unfold emitChange at h
  split at h
  next nb reason d hc =>
    split at h
    · cases h
      exact ⟨nb, reason, d, hc, by assumption, rfl, rfl⟩
    · cases h
  next => cases h

/-- The emitted change list is the per-target filterMap over the flattened
input. -/
theorem changes_eq_filterMap (rule : Rule) (gs : List (List Target)) :
    (calculateAdjustments rule gs).changes = gs.flatten.filterMap (emitChange rule) := rfl

/- ── C5 ─────────────────────────────────────────────────────────────── -/

/-- C5 (amended): every emitted bid change moves the recorded bid by at
least one cent; and provided the rule is well-formed (`0 ≤ bid_step`,
`min_bid ≤ max_bid`, both bounds exact cent amounts) and every analyzed
target's current bid already lies inside `[min_bid, max_bid]`, every
emitted change also satisfies `min_bid ≤ new_bid ≤ max_bid`.  (The
unconditional bound of the original claim fails: a decrease is clamped
only at `min_bid`, so a bid above `max_bid` stays above it — see the
counterexample.) -/
theorem C5_bid_change_bounds :
    (∀ (rule : Rule) (gs : List (List Target)) (c : BidChange),
        c ∈ (calculateAdjustments rule gs).changes → 1/100 ≤ |c.newBid - c.currentBid|)
  ∧ (∀ (rule : Rule) (gs : List (List Target)),
        0 ≤ rule.bidStep → rule.minBid ≤ rule.maxBid →
        isCent rule.minBid → isCent rule.maxBid →
        (∀ t ∈ gs.flatten, rule.minBid ≤ t.bid ∧ t.bid ≤ rule.maxBid) →
        ∀ c ∈ (calculateAdjustments rule gs).changes,
            rule.minBid ≤ c.newBid ∧ c.newBid ≤ rule.maxBid) := by
  constructor
  · intro rule gs c hc
    rw [changes_eq_filterMap] at hc
    obtain ⟨t, _, hemit⟩ := List.mem_filterMap.mp hc
    obtain ⟨nb, r, d, _, hg, hnew, hcur⟩ := emitChange_eq_some hemit
    rw [hnew, hcur]
    exact round2_abs_ge hg
  · intro rule gs hstep hmm hminc hmaxc hin c hc
    rw [changes_eq_filterMap] at hc
    obtain ⟨t, ht, hemit⟩ := List.mem_filterMap.mp hc
    obtain ⟨nb, r, d, hcalc, hg, hnew, hcur⟩ := emitChange_eq_some hemit
    obtain ⟨hlo, hhi⟩ := hin t ht
    have hnbB : rule.minBid ≤ nb ∧ nb ≤ rule.maxBid := by
      rcases calcTarget_adjust_shape hcalc with h1 | h1 | h1 <;> subst h1
      · exact ⟨le_max_right _ _, max_le (by linarith) hmm⟩
      · exact ⟨le_max_right _ _, max_le (by linarith) hmm⟩
      · exact ⟨le_min (by linarith) hmm, min_le_right _ _⟩
    rw [hnew]
    constructor
    · exact (round2_cent hminc) ▸ round2_mono hnbB.1
    · exact (round2_cent hmaxc) ▸ round2_mono hnbB.2

set_option maxRecDepth 10000 in
/-- C5 counterexample: with the default rule parameters
(`min_bid = 0.02`, `max_bid = 100`, `bid_step = 0.10`) an enabled target
with current bid 200 and ACOS 100% gets the decrease `new_bid = 199.90`,
which violates `new_bid ≤ max_bid` — the decrease branches clamp only at
`min_bid`. -/
theorem C5_counterexample :
    (calculateAdjustments ruleDefault [[tOverMax]]).changes =
      [{ targetId := "T1", currentBid := 200, newBid := 1999/10, change := -(1/10),
         direction := .decrease, reason := .highAcos 100 30, currentAcos := some 100,
         clicks := 20, spend := 100, sales := 100 }]
    ∧ ¬ ((1999 : ℚ)/10 ≤ ruleDefault.maxBid) := by
  constructor
  · with_unfolding_all decide
  · norm_num [ruleDefault]

set_option maxRecDepth 10000 in
/-- C5 witness: the bound theorem applied to spec example scenario 1 under
the default rule. -/
theorem C5_bid_change_bounds_witness :
    ruleDefault.minBid ≤ ((2 : ℚ)/5) ∧ ((2 : ℚ)/5) ≤ ruleDefault.maxBid := by
  have h := C5_bid_change_bounds.2 ruleDefault [[tEx1]] (by norm_num [ruleDefault])
    (by norm_num [ruleDefault]) ⟨2, by norm_num [ruleDefault]⟩ ⟨10000, by norm_num [ruleDefault]⟩
    (by intro t ht; simp at ht; subst ht; constructor <;> norm_num [tEx1, ruleDefault])
    { targetId := "K1", currentBid := 1/2, newBid := 2/5, change := -(1/10),
      direction := .decrease, reason := .noSales 20 40, currentAcos := none,
      clicks := 20, spend := 40, sales := 0 } (by with_unfolding_all decide)
  simpa using h

/- ── C6 ─────────────────────────────────────────────────────────────── -/

/-- C6 (amended): for every analyzed target that carries a target id, is
active, has a positive current bid and has `clicks ≥ min_clicks` (and a
nonnegative `target_acos`, without which the three ACOS bands of the rule
overlap), the optimizer proposes exactly the new bid of the claim's case
table, and the two spec example scenarios evaluate as stated.  (The
original claim, without the target-id proviso, fails — see the
counterexample.) -/
theorem C6_acos_decision (rule : Rule) (t : Target)
    (htacos : 0 ≤ rule.targetAcos)
    (hid : t.targetId ≠ "") (hstate : t.state.toUpper = "ENABLED")
    (hbid : 0 < t.bid) (hclicks : rule.minClicks ≤ t.clicks) :
    ((0 < t.sales →
      ((rule.targetAcos * (12/10) < t.spend / t.sales * 100 →
          calcTarget rule t = .adjust (max (t.bid - rule.bidStep) rule.minBid)
            (.highAcos (t.spend / t.sales * 100) rule.targetAcos) .decrease)
        ∧ (rule.targetAcos < t.spend / t.sales * 100 →
            t.spend / t.sales * 100 ≤ rule.targetAcos * (12/10) →
            calcTarget rule t = .adjust (max (t.bid - rule.bidStep * (1/2)) rule.minBid)
              (.slightlyAbove (t.spend / t.sales * 100) rule.targetAcos) .decrease)
        ∧ (t.spend / t.sales * 100 < rule.targetAcos * (7/10) →
            calcTarget rule t = .adjust (min (t.bid + rule.bidStep) rule.maxBid)
              (.roomToGrow (t.spend / t.sales * 100)) .increase)
        ∧ (rule.targetAcos * (7/10) ≤ t.spend / t.sales * 100 →
            t.spend / t.sales * 100 ≤ rule.targetAcos →
            calcTarget rule t = .hold)))
    ∧ (t.sales ≤ 0 → 0 < t.spend →
        calcTarget rule t = .adjust (max (t.bid - rule.bidStep) rule.minBid)
          (.noSales t.clicks t.spend) .decrease))
  ∧ (calculateAdjustments ruleDefault [[tEx1]]).changes =
      [{ targetId := "K1", currentBid := 1/2, newBid := 2/5, change := -(1/10),
         direction := .decrease, reason := .noSales 20 40, currentAcos := none,
         clicks := 20, spend := 40, sales := 0 }]
  ∧ (calculateAdjustments ruleDefault [[tEx2]]).changes =
      [{ targetId := "K2", currentBid := 1, newBid := 11/10, change := 1/10,
         direction := .increase, reason := .roomToGrow 10, currentAcos := some 10,
         clicks := 15, spend := 10, sales := 100 }] := by
  have h1 : ¬ (t.state.toUpper ≠ "ENABLED" ∧ t.state.toUpper ≠ "") := by
    simp [hstate]
  have h2 : ¬ (t.targetId = "" ∨ t.bid ≤ 0) := by
    rintro (he | hle)
    · exact hid he
    · exact absurd hle (not_le.mpr hbid)
  refine ⟨⟨?_, ?_⟩, ?_, ?_⟩
  · intro hsal
    refine ⟨?_, ?_, ?_, ?_⟩
    · intro hhi
      unfold calcTarget
      rw [if_neg h1, if_neg h2, if_pos hclicks, if_pos hsal, if_pos hhi]
    · intro ha hb
      unfold calcTarget
      rw [if_neg h1, if_neg h2, if_pos hclicks, if_pos hsal, if_neg (by simp; linarith),
          if_pos ha]
    · intro hlow
      unfold calcTarget
      rw [if_neg h1, if_neg h2, if_pos hclicks, if_pos hsal, if_neg (by simp; nlinarith),
          if_neg (by simp; nlinarith), if_pos hlow]
    · intro ha hb
      unfold calcTarget
      rw [if_neg h1, if_neg h2, if_pos hclicks, if_pos hsal, if_neg (by simp; nlinarith),
          if_neg (by simp; linarith), if_neg (by simp; linarith)]
  · intro hsal hspend
    unfold calcTarget
    rw [if_neg h1, if_neg h2, if_pos hclicks, if_neg (by simp; linarith), if_pos hspend]
  · with_unfolding_all decide
  · with_unfolding_all decide

set_option maxRecDepth 10000 in
/-- C6 counterexample: a target dict identical to spec example scenario 1
(active, bid 0.50, 20 clicks, spend 40, no sales) but carrying no
`targetId`/`id` key is analyzed yet produces no proposal at all — the
source skips it — where the claim requires the 0.40 no-sales decrease. -/
theorem C6_counterexample :
    tNoId.state.toUpper = "ENABLED" ∧ 0 < tNoId.bid ∧ ruleDefault.minClicks ≤ tNoId.clicks
    ∧ tNoId.sales = 0 ∧ 0 < tNoId.spend
    ∧ (calculateAdjustments ruleDefault [[tNoId]]).changes = []
    ∧ (calculateAdjustments ruleDefault [[tNoId]]).summary.unchanged = 1 := by
  with_unfolding_all decide

set_option maxRecDepth 10000 in
/-- C6 witness: the decision theorem instantiated on spec example
scenario 1 under the default rule. -/
theorem C6_acos_decision_witness :
    calcTarget ruleDefault tEx1 =
      .adjust (max (tEx1.bid - ruleDefault.bidStep) ruleDefault.minBid)
        (.noSales tEx1.clicks tEx1.spend) .decrease :=
  (C6_acos_decision ruleDefault tEx1 (by norm_num [ruleDefault])
    (by with_unfolding_all decide) (by with_unfolding_all decide)
    (by norm_num [tEx1]) (by with_unfolding_all decide)).1.2
    (by norm_num [tEx1]) (by norm_num [tEx1])

/- ── C7 ─────────────────────────────────────────────────────────────── -/

/-- C7 (amended): every target whose upper-cased state is neither the
active value `"ENABLED"` nor empty, or whose current bid is ≤ 0, or whose
clicks are below `min_clicks`, is skipped: its decision is `skip`, it
emits no change, and a run over just this target reports one unchanged
target and an empty change list.  (The original claim, which requires a
skip for *every* state other than the active value, fails on the empty
state — the source also treats a missing state as active; see the
counterexample.) -/
theorem C7_skip_conditions (rule : Rule) (t : Target)
    (h : (t.state.toUpper ≠ "ENABLED" ∧ t.state.toUpper ≠ "") ∨ t.bid ≤ 0
          ∨ t.clicks < rule.minClicks) :
    calcTarget rule t = .skip ∧ emitChange rule t = none
    ∧ (calculateAdjustments rule [[t]]).changes = []
    ∧ (calculateAdjustments rule [[t]]).summary.unchanged = 1 := by
  have hskip : calcTarget rule t = .skip := by
    unfold calcTarget
    by_cases h1 : t.state.toUpper ≠ "ENABLED" ∧ t.state.toUpper ≠ ""
    · rw [if_pos h1]
    · rw [if_neg h1]
      by_cases h2 : t.targetId = "" ∨ t.bid ≤ 0
      · rw [if_pos h2]
      · rcases h with hst | hb | hclk
        · exact absurd hst h1
        · exact absurd (Or.inr hb) h2
        · rw [if_neg h2, if_neg (not_le.mpr hclk)]
  have hemit : emitChange rule t = none := by
    unfold emitChange
    rw [hskip]
  refine ⟨hskip, hemit, ?_, ?_⟩
  · simp [changes_eq_filterMap, hemit]
  · simp [calculateAdjustments, hskip, countsUnchanged]

set_option maxRecDepth 10000 in
/-- C7 counterexample: a target whose `state` key is absent (extracted as
`""`, which is not the active value `"ENABLED"`) is *not* skipped: with
20 clicks, spend 40 and no sales it receives a decrease to 0.90 and the
run reports zero unchanged targets — the source's skip test is
`state not in ("ENABLED", "")`. -/
theorem C7_counterexample :
    tEmptyState.state ≠ "ENABLED"
    ∧ (calculateAdjustments ruleDefault [[tEmptyState]]).changes =
        [{ targetId := "T2", currentBid := 1, newBid := 9/10, change := -(1/10),
           direction := .decrease, reason := .noSales 20 40, currentAcos := none,
           clicks := 20, spend := 40, sales := 0 }]
    ∧ (calculateAdjustments ruleDefault [[tEmptyState]]).summary.unchanged = 0 := by
  with_unfolding_all decide

set_option maxRecDepth 10000 in
/-- C7 witness: the skip theorem instantiated on a paused target. -/
theorem C7_skip_conditions_witness :
    calcTarget ruleDefault tPaused = .skip ∧ emitChange ruleDefault tPaused = none
    ∧ (calculateAdjustments ruleDefault [[tPaused]]).changes = []
    ∧ (calculateAdjustments ruleDefault [[tPaused]]).summary.unchanged = 1 :=
  C7_skip_conditions ruleDefault tPaused (Or.inl (by with_unfolding_all decide))

/- ── C2 helpers and theorem ─────────────────────────────────────────── -/

/-- Relate a record to its post-operation version by an allowed status
transition. -/
def statusOk (c c' : Change) : Prop := okTransition c.status c'.status

/-- A record left alone makes the identity transition. -/
theorem statusOk_refl (c : Change) : statusOk c c := Or.inl rfl

/-- A reflexive relation holds pairwise between a list and itself. -/
theorem forall₂_refl_of (R : Change → Change → Prop) (hrefl : ∀ c, R c c) (l : List Change) :
    List.Forall₂ R l l := by
  induction l with
  | nil => exact .nil
  | cons c cs ih => exact .cons (hrefl c) ih

/-- A pairwise relation between a list and its elementwise map. -/
theorem forall₂_map_self (R : Change → Change → Prop) (f : Change → Change)
    (h : ∀ c, R c (f c)) (l : List Change) : List.Forall₂ R l (l.map f) := by
  induction l with
  | nil => exact .nil
  | cons c cs ih => exact .cons (h c) ih

/-- Replacing the first id match relates every position: the replaced
record by the given relation step, all others by reflexivity. -/
theorem forall₂_updateById (R : Change → Change → Prop) (hrefl : ∀ c, R c c)
    (store : List Change) (cid : String) (c c' : Change)
    (hf : store.find? (fun x => x.id = cid) = some c) (hR : R c c') :
    List.Forall₂ R store (updateById store cid c') := by
  induction store with
  | nil => cases hf
  | cons x xs ih =>
    by_cases hx : x.id = cid
    · have hxc : x = c := by
        rw [List.find?_cons_of_pos _ (by simp [hx])] at hf
        exact Option.some.inj hf
      subst hxc
      unfold updateById
      rw [if_pos hx]
      exact .cons hR (forall₂_refl_of R hrefl xs)
    · have hf' : xs.find? (fun y => y.id = cid) = some c := by
        rw [List.find?_cons_of_neg _ (by simp [hx])] at hf
        exact hf
      unfold updateById
      rw [if_neg hx]
      exact .cons (hrefl x) (ih hf')

/-- Deleting a record leaves a sublist of the store. -/
theorem removeById_subset (store : List Change) (cid : String) :
    ∀ c' ∈ removeById store cid, c' ∈ store := by
  induction store with
  | nil => intro c' h; cases h
  | cons x xs ih =>
    intro c' h
    unfold removeById at h
    by_cases hx : x.id = cid
    · rw [if_pos hx] at h
      exact List.mem_cons_of_mem x h
    · rw [if_neg hx] at h
      rcases List.mem_cons.mp h with h1 | h1
      · exact h1 ▸ List.mem_cons_self x xs
      · exact List.mem_cons_of_mem x (ih c' h1)

/-- The apply loop body always lands a processed change on `applied` or
`failed`. -/
theorem applyOne_status (adp : Adapter) (now : ℕ) (c : Change) :
    (applyOne adp now c).1.status = "applied" ∨ (applyOne adp now c).1.status = "failed" := by
  unfold applyOne
  split_ifs <;> first
    | simp
    | (cases hcall : adp.callTool c.mcpPayload.tool c.mcpPayload.args <;> simp [hcall])

/-- Batch review only selects pending records. -/
theorem batchSelected_pending {cids : List String} {c : Change}
    (h : batchSelected cids c = true) : c.status = "pending" := by
  simp [batchSelected] at h
  exact h.2

/-- The apply endpoint only selects approved records. -/
theorem applySelected_approved {ids : Option (List String)} {batch : Option String} {c : Change}
    (h : applySelected ids batch c = true) : c.status = "approved" := by
  simp [applySelected] at h
  exact h.1

/-- C2: every mutating operation of the approval queue and the pipeline
moves every record's status only along the allowed transitions
pending→approved, pending→rejected (single and batch review, which refuse
non-pending records), approved→applied and approved→failed (the apply
endpoint, which selects only approved records); deletion removes records
without transitioning any survivor. -/
theorem C2_status_transitions :
    (∀ (now : ℕ) (store : List Change) (cid action : String) (note : Option String),
        List.Forall₂ statusOk store (reviewChange now store cid action note).1)
  ∧ (∀ (now : ℕ) (store : List Change) (cids : List String) (action : String)
        (note : Option String),
        List.Forall₂ statusOk store (batchReview now store cids action note).1)
  ∧ (∀ (adp : Adapter) (now : ℕ) (store : List Change) (ids : Option (List String))
        (batch : Option String),
        List.Forall₂ statusOk store (applyApprovedChanges adp now store ids batch).1)
  ∧ (∀ (store : List Change) (cid : String),
        ∀ c' ∈ (deleteChange store cid).1, c' ∈ store) := by
  refine ⟨?_, ?_, ?_, ?_⟩
  · intro now store cid action note
    unfold reviewChange
    cases hf : store.find? (fun c => c.id = cid) with
    | none => exact forall₂_refl_of _ statusOk_refl store
    | some c =>
      dsimp only
      split_ifs with h1 h2 h3
      · exact forall₂_refl_of _ statusOk_refl store
      · exact forall₂_refl_of _ statusOk_refl store
      · exact forall₂_updateById statusOk statusOk_refl store cid c _ hf
          (Or.inr (Or.inl ⟨not_not.mp h1, rfl⟩))
      · exact forall₂_updateById statusOk statusOk_refl store cid c _ hf
          (Or.inr (Or.inr (Or.inl ⟨not_not.mp h1, rfl⟩)))
  · intro now store cids action note
    unfold batchReview
    dsimp only
    split_ifs with h1 h2 h3
    · exact forall₂_refl_of _ statusOk_refl store
    · exact forall₂_refl_of _ statusOk_refl store
    · apply forall₂_map_self
      intro c
      by_cases hc : batchSelected cids c = true
      · rw [if_pos hc]
        exact Or.inr (Or.inl ⟨batchSelected_pending hc, rfl⟩)
      · rw [if_neg (by simpa using hc)]
        exact statusOk_refl c
    · apply forall₂_map_self
      intro c
      by_cases hc : batchSelected cids c = true
      · rw [if_pos hc]
        exact Or.inr (Or.inr (Or.inl ⟨batchSelected_pending hc, rfl⟩))
      · rw [if_neg (by simpa using hc)]
        exact statusOk_refl c
  · intro adp now store ids batch
    unfold applyApprovedChanges
    dsimp only
    split_ifs with h1 h2
    · exact forall₂_refl_of _ statusOk_refl store
    · exact forall₂_refl_of _ statusOk_refl store
    · apply forall₂_map_self
      intro c
      by_cases hc : applySelected ids batch c = true
      · rw [if_pos hc]
        have hap := applySelected_approved hc
        rcases applyOne_status adp now c with hs | hs
        · exact Or.inr (Or.inr (Or.inr (Or.inl ⟨hap, hs⟩)))
        · exact Or.inr (Or.inr (Or.inr (Or.inr ⟨hap, hs⟩)))
      · rw [if_neg (by simpa using hc)]
        exact statusOk_refl c
  · intro store cid
    unfold deleteChange
    cases hf : store.find? (fun c => c.id = cid) with
    | none => intro c' h; exact h
    | some c =>
      dsimp only
      split_ifs with h1
      · intro c' h; exact h
      · exact removeById_subset store cid

/-- C2 witness: the deletion conjunct applied to a concrete store. -/
theorem C2_status_transitions_witness :
    cPend ∈ (deleteChange [cPend] "nope").1 :=
  C2_status_transitions.2.2.2 [cPend] "nope" cPend (by with_unfolding_all decide)

/- ── C1 ─────────────────────────────────────────────────────────────── -/

set_option maxRecDepth 10000 in
/-- C1: the apply loop processes the selected changes in list order and
each change's outcome is a function of that change (and the adapter)
alone, so one change's failure is invisible to its siblings; a change
whose mutation command has a missing or unknown operation name is marked
`failed` with the fixed error message; a change whose adapter call raises
is marked `failed` with the exception text; and in the concrete batch of
three approved changes whose second names the unknown operation, the
statuses come out `applied`, `failed`, `applied`. -/
theorem C1_failure_isolation :
    (∀ (adp : Adapter) (now : ℕ) (cs : List Change),
        (applyBatch adp now cs).1 = cs.map (fun c => (applyOne adp now c).1)
      ∧ (applyBatch adp now cs).2.2.2 = cs.map (fun c => (applyOne adp now c).2))
  ∧ (∀ (adp : Adapter) (now : ℕ) (c : Change),
        c.mcpPayload.tool = "" ∨ c.mcpPayload.tool = "unknown" →
        (applyOne adp now c).1.status = "failed" ∧
        (applyOne adp now c).1.errorMessage = some "Unknown MCP tool in payload")
  ∧ (∀ (adp : Adapter) (now : ℕ) (c : Change) (e : String),
        c.mcpPayload.tool ≠ "" → c.mcpPayload.tool ≠ "unknown" →
        c.mcpPayload.tool ≠ "_harvest_execute" → c.mcpPayload.tool ≠ "_ai_campaign_create" →
        adp.callTool c.mcpPayload.tool c.mcpPayload.args = .error e →
        (applyOne adp now c).1.status = "failed" ∧
        (applyOne adp now c).1.errorMessage = some e)
  ∧ ((applyBatch okAdapter 7 [cApply1, cApply2, cApply3]).1.map (fun c => c.status) =
        ["applied", "failed", "applied"]) := by
  refine ⟨?_, ?_, ?_, ?_⟩
  · intro adp now cs
    constructor <;> simp [applyBatch, List.map_map, Function.comp]
  · intro adp now c h
    rcases h with h | h <;> simp [applyOne, h]
  · intro adp now c e h1 h2 h3 h4 h5
    simp [applyOne, h1, h2, h3, h4, h5]
  · with_unfolding_all decide

/-- C1 witness: the unknown-operation conjunct applied to the concrete
second change of the scenario batch. -/
theorem C1_failure_isolation_witness :
    (applyOne okAdapter 7 cApply2).1.status = "failed" ∧
    (applyOne okAdapter 7 cApply2).1.errorMessage = some "Unknown MCP tool in payload" :=
  C1_failure_isolation.2.1 okAdapter 7 cApply2 (Or.inr rfl)

/- ── C8 ─────────────────────────────────────────────────────────────── -/

/-- Replacing the first id match makes it what `find?` returns. -/
theorem find?_updateById (store : List Change) (cid : String) (c c' : Change)
    (hf : store.find? (fun x => x.id = cid) = some c) (hc' : c'.id = cid) :
    (updateById store cid c').find? (fun x => x.id = cid) = some c' := by
  induction store with
  | nil => cases hf
  | cons x xs ih =>
    by_cases hx : x.id = cid
    · unfold updateById
      rw [if_pos hx]
      exact List.find?_cons_of_pos _ (by simp [hc'])
    · unfold updateById
      rw [if_neg hx]
      rw [List.find?_cons_of_neg _ (by simp [hx])] at hf
      rw [List.find?_cons_of_neg _ (by simp [hx])]
      exact ih hf

/-- C8: single review fails with `NotFound` on an unknown id; fails with
`InvalidState` on a record that is not pending, leaving the store
entirely untouched; and a second `review(id, approve)` on the same record
fails with `InvalidState` while `reviewed_at` keeps the value set by the
first call. -/
theorem C8_review_guards :
    (∀ (now : ℕ) (store : List Change) (cid action : String) (note : Option String),
        store.find? (fun c => c.id = cid) = none →
        reviewChange now store cid action note = (store, [], .error .notFound))
  ∧ (∀ (now : ℕ) (store : List Change) (cid action : String) (note : Option String)
        (c : Change),
        store.find? (fun c => c.id = cid) = some c → c.status ≠ "pending" →
        reviewChange now store cid action note = (store, [], .error (.invalidState c.status)))
  ∧ (∀ (now now' : ℕ) (store store' : List Change) (cid : String) (note note' : Option String)
        (logs : List LogEntry) (resp : String × String),
        reviewChange now store cid "approve" note = (store', logs, .ok resp) →
        reviewChange now' store' cid "approve" note' =
          (store', [], .error (.invalidState "approved"))
        ∧ (store'.find? (fun c => c.id = cid)).map (fun c => c.reviewedAt) =
            some (some now)) := by
  refine ⟨?_, ?_, ?_⟩
  · intro now store cid action note hf
    unfold reviewChange
    rw [hf]
  · intro now store cid action note c hf hst
    unfold reviewChange
    rw [hf]
    dsimp only
    rw [if_pos hst]
  · intro now now' store store' cid note note' logs resp h
    unfold reviewChange at h
    cases hf : store.find? (fun c => c.id = cid) with
    | none => rw [hf] at h; simp at h
    | some c =>
      rw [hf] at h
      dsimp only at h
      split_ifs at h with h1 h2 h3
      · simp at h
      · exact absurd h2 (by simp)
      · have hcid : c.id = cid := by
          have := List.find?_some hf
          simpa using this
        have hstore' : store' = updateById store cid
            { c with status := "approved", reviewedAt := some now, reviewNote := note } := by
          have := congrArg Prod.fst h
          simpa using this.symm
        have hfind' : store'.find? (fun x => x.id = cid) =
            some { c with status := "approved", reviewedAt := some now, reviewNote := note } := by
          rw [hstore']
          exact find?_updateById store cid c _ hf (by simpa using hcid)
        constructor
        · unfold reviewChange
          rw [hfind']
          dsimp only
          rw [if_pos (by simp)]
        · rw [hfind']
          rfl
      · exact absurd rfl h3

set_option maxRecDepth 10000 in
/-- C8 witness: the double-review conjunct on a concrete one-record store. -/
theorem C8_review_guards_witness :
    reviewChange 2 [{ cPend with status := "approved", reviewedAt := some 1 }] "A" "approve" none
      = ([{ cPend with status := "approved", reviewedAt := some 1 }], [],
         .error (.invalidState "approved"))
    ∧ (([{ cPend with status := "approved", reviewedAt := some 1 }].find?
          (fun c => c.id = "A")).map (fun c => c.reviewedAt)) = some (some 1) :=
  C8_review_guards.2.2 1 2 [cPend] [{ cPend with status := "approved", reviewedAt := some 1 }]
    "A" none none [{ action := "change_approved" }] ("A", "approved")
    (by with_unfolding_all decide)

/- ── C9 ─────────────────────────────────────────────────────────────── -/

/-- C9 (amended): with a valid action, batch review silently skips ids
that are not currently pending *provided at least one selected record is
pending*: only pending records are transitioned, the returned count is
exactly the number of records actually transitioned, and exactly one
combined audit-log row is written for the whole call; when *no* selected
record is pending the call instead fails with a 404 `NotFound`-style
error (see the counterexample against the original claim). -/
theorem C9_batch_review (now : ℕ) (store : List Change) (cids : List String)
    (action : String) (note : Option String)
    (hact : action = "approve" ∨ action = "reject") :
    ((store.filter (batchSelected cids)).isEmpty = true →
      batchReview now store cids action note = (store, [], .error .noPending))
  ∧ ((store.filter (batchSelected cids)).isEmpty = false →
      (batchReview now store cids action note).2.2 =
        .ok ((store.filter (batchSelected cids)).length,
             if action = "approve" then "approved" else "rejected")
      ∧ (batchReview now store cids action note).2.1 =
          [{ action := "batch_change_" ++ action ++ "d" }]
      ∧ List.Forall₂ (fun c c' =>
            (batchSelected cids c = true →
              c' = { c with
                      status := if action = "approve" then "approved" else "rejected"
                      reviewedAt := some now
                      reviewNote := note })
          ∧ (batchSelected cids c = false → c' = c))
          store (batchReview now store cids action note).1) := by
  have hvalid : ¬ (action ≠ "approve" ∧ action ≠ "reject") := by
    rcases hact with h | h <;> simp [h]
  constructor
  · intro hemp
    unfold batchReview
    rw [if_neg hvalid]
    dsimp only
    rw [if_pos hemp]
  · intro hemp
    unfold batchReview
    rw [if_neg hvalid]
    dsimp only
    rw [if_neg (by simp [hemp])]
    refine ⟨rfl, rfl, ?_⟩
    apply forall₂_map_self
    intro c
    constructor
    · intro hc
      rw [if_pos hc]
    · intro hc
      rw [if_neg (by simp [hc])]

set_option maxRecDepth 10000 in
/-- C9 counterexample: a batch review whose only id refers to an
already-approved record raises the 404 error `"No pending changes found"`
instead of silently reporting a count of zero, refuting the claim's
"including the case where none are pending". -/
theorem C9_counterexample :
    batchReview 0 [cApproved] ["B"] "approve" none = ([cApproved], [], .error .noPending) := by
  with_unfolding_all decide

/-- C9 witness: the nonempty-selection conjunct instantiated on a
one-pending-record store, showing the single combined audit-log row. -/
theorem C9_batch_review_witness :
    (batchReview 5 [cPend] ["A"] "approve" none).2.1 =
      [{ action := "batch_change_" ++ "approve" ++ "d" }] :=
  ((C9_batch_review 5 [cPend] ["A"] "approve" none (Or.inl rfl)).2
    (by with_unfolding_all decide)).2.1

/- ── C3 ─────────────────────────────────────────────────────────────── -/

set_option maxRecDepth 10000 in
/-- C3 (amended): for a campaign-bundle composite change the steps run
strictly in dependency order — campaign creation first and, per ad group
in list order, ad-group creation then ad creation then keyword-target
creation, threading each created id forward (visible in the call trace);
a failed ad-group step only appends to the `errors` list and the
remaining ad groups' contributions are unaffected; if campaign creation
itself fails execution aborts immediately with nothing else issued; the
pipeline marks the change `applied` with the full result (created ids and
errors) folded into `apply_result` whenever the executor returns — which,
contrary to the original claim's "and not otherwise", includes the case
where campaign creation itself failed (see the counterexample); and in
the concrete 2-ad-group scenario where ad group 2 of 2 fails, the result
lists ad group 1's created ids plus exactly one error entry and the
change is applied. -/
theorem C3_campaign_bundle :
    (∀ (adp : Adapter) (plan : Plan) (camp : CampaignPlan) (e : String),
        plan.campaign = some camp →
        adp.createCampaign (buildCampaignPayload camp) = .error e →
        executePlanT adp plan =
          ({ errors := ["Campaign creation failed: " ++ e] },
           [.campaign (buildCampaignPayload camp)]))
  ∧ (∀ (adp : Adapter) (plan : Plan) (camp : CampaignPlan) (cid : String)
        (pre suf : List AdGroupPlan) (g : AdGroupPlan),
        plan.campaign = some camp →
        adp.createCampaign (buildCampaignPayload camp) = .ok (some cid) →
        plan.adGroups = pre ++ g :: suf →
        (executePlan adp plan).campaignId = some cid
        ∧ (executePlan adp plan).errors =
            (pre.map (fun a => (processAdGroup adp plan camp cid a).1.errors)).flatten
            ++ ((processAdGroup adp plan camp cid g).1.errors
                ++ (suf.map (fun a => (processAdGroup adp plan camp cid a).1.errors)).flatten)
        ∧ (executePlan adp plan).adGroupIds =
            (pre.map (fun a => (processAdGroup adp plan camp cid a).1.agIds)).flatten
            ++ ((processAdGroup adp plan camp cid g).1.agIds
                ++ (suf.map (fun a => (processAdGroup adp plan camp cid a).1.agIds)).flatten)
        ∧ (executePlanT adp plan).2 =
            .campaign (buildCampaignPayload camp)
            :: ((pre.map (fun a => (processAdGroup adp plan camp cid a).2)).flatten
                ++ ((processAdGroup adp plan camp cid g).2
                    ++ (suf.map (fun a => (processAdGroup adp plan camp cid a).2)).flatten)))
  ∧ (∀ (adp : Adapter) (now : ℕ) (c : Change),
        c.mcpPayload.tool = "_ai_campaign_create" →
        (applyOne adp now c).1.status = "applied"
        ∧ (applyOne adp now c).1.applyResult =
            some (.plan (executePlan adp (c.mcpPayload.args.plan.getD {}))))
  ∧ (executePlan okAdapter plan2 =
      { campaignId := some "C1", adGroupIds := ["G1"], adIds := ["AD1"], targetIds := ["T1"],
        errors := ["Ad group creation failed: boom"] }
    ∧ (executePlanT okAdapter plan2).2 =
        [.campaign { name := "Camp", adProduct := "SPONSORED_PRODUCTS",
                     targetingType := "manual", state := "enabled", dailyBudget := 10 },
         .adGroup { campaignId := "C1", name := "AG one", state := "enabled",
                    defaultBid := some (3/4) },
         .adCreate { adGroupId := "G1", asin := "B0TEST", state := "enabled", name := none },
         .targets [{ adGroupId := "G1", expression := "shoes", expressionType := "keyword",
                     matchType := "broad", bid := 3/4 }],
         .adGroup { campaignId := "C1", name := "AG two", state := "enabled",
                    defaultBid := some (3/4) }]
    ∧ (applyOne okAdapter 7 cPlan2Change).1.status = "applied") := by
  refine ⟨?_, ?_, ?_, ?_⟩
  · intro adp plan camp e hplan hcc
    unfold executePlanT
    rw [hplan]
    dsimp only
    rw [hcc]
  · intro adp plan camp cid pre suf g hplan hcc hgroups
    have hgne : (pre ++ g :: suf).isEmpty = false := by simp
    refine ⟨?_, ?_, ?_, ?_⟩ <;>
      simp [executePlan, executePlanT, hplan, hcc, effectiveAdGroups, hgroups, hgne,
            List.map_append, List.flatten_append, Function.comp_def]
  · intro adp now c h
    constructor <;> simp [applyOne, h]
  · refine ⟨?_, ?_, ?_⟩
    · with_unfolding_all decide
    · with_unfolding_all decide
    · with_unfolding_all decide

set_option maxRecDepth 10000 in
/-- C3 counterexample: when campaign creation itself raises, the executor
returns an error-only result (no campaign id) and the pipeline still
marks the change `applied` — refuting the claim's "marked applied when
the campaign was created ... and not otherwise". -/
theorem C3_counterexample :
    (applyOne failCampAdapter 5 cPlan2Change).1.status = "applied"
    ∧ (executePlan failCampAdapter plan2).campaignId = none
    ∧ (executePlan failCampAdapter plan2).errors = ["Campaign creation failed: campfail"] := by
  refine ⟨?_, ?_, ?_⟩ <;> with_unfolding_all decide

/-- C3 witness: the applied-status conjunct on the concrete bundle change. -/
theorem C3_campaign_bundle_witness :
    (applyOne okAdapter 7 cPlan2Change).1.status = "applied" :=
  (C3_campaign_bundle.2.2.1 okAdapter 7 cPlan2Change rfl).1

/- ── C4 ─────────────────────────────────────────────────────────────── -/

/-- C4 (amended): the pipeline re-invokes the Harvest Engine with exactly
the parameters stored in the mutation command (target mode defaulting to
"existing") and folds the engine's whole result into that one change's
`apply_result`; the engine catches every exception of its own steps and
returns an error-status result, so the change is marked `applied` with
the error recorded inside `apply_result` — the pipeline's own exception
handler (which would mark the change `failed`) is never reached by a
failing harvest run, contrary to the original claim's final clause (see
the counterexample). -/
theorem C4_harvest_execute :
    (∀ (adp : Adapter) (now : ℕ) (c : Change),
        c.mcpPayload.tool = "_harvest_execute" →
        applyOne adp now c =
          ({ c with
              status := "applied"
              appliedAt := some now
              applyResult := some (.harvest (executeHarvest adp
                (c.mcpPayload.args.sourceCampaignId.getD "")
                (c.mcpPayload.args.salesThreshold.getD 1)
                c.mcpPayload.args.acosThreshold
                (c.mcpPayload.args.targetMode.getD "existing")
                c.mcpPayload.args.targetCampaignId none
                c.mcpPayload.args.matchType
                (c.mcpPayload.args.negateInSource.getD true))) },
           { id := c.id, status := "applied" }))
  ∧ ((applyOne failHarvestAdapter 3 cHarvest).1.status = "applied"
      ∧ (executeHarvest failHarvestAdapter "SRC" 1 none "existing" (some "TGT")
          none none true).status = "error") := by
  constructor
  · intro adp now c h
    simp [applyOne, h]
  · constructor
    · with_unfolding_all decide
    · with_unfolding_all decide

set_option maxRecDepth 10000 in
/-- C4 counterexample: a harvest-to-existing change whose engine run fails
(the target query raises "net down") ends with status `applied` — not
`failed` as the claim requires — with the error-status engine result
stored in `apply_result`. -/
theorem C4_counterexample :
    (applyOne failHarvestAdapter 3 cHarvest).1.status = "applied"
    ∧ (applyOne failHarvestAdapter 3 cHarvest).1.status ≠ "failed"
    ∧ (applyOne failHarvestAdapter 3 cHarvest).1.applyResult =
        some (.harvest { status := "error", mode := "existing_campaign",
                         sourceCampaignId := "SRC", targetCampaignId := some "TGT",
                         error := some "net down" }) := by
  refine ⟨?_, ?_, ?_⟩ <;> with_unfolding_all decide

/-- C4 witness: the re-invocation conjunct on the concrete harvest change
and failing adapter. -/
theorem C4_harvest_execute_witness :
    applyOne failHarvestAdapter 3 cHarvest =
      ({ cHarvest with
          status := "applied"
          appliedAt := some 3
          applyResult := some (.harvest (executeHarvest failHarvestAdapter
            (cHarvest.mcpPayload.args.sourceCampaignId.getD "")
            (cHarvest.mcpPayload.args.salesThreshold.getD 1)
            cHarvest.mcpPayload.args.acosThreshold
            (cHarvest.mcpPayload.args.targetMode.getD "existing")
            cHarvest.mcpPayload.args.targetCampaignId none
            cHarvest.mcpPayload.args.matchType
            (cHarvest.mcpPayload.args.negateInSource.getD true))) },
       { id := cHarvest.id, status := "applied" }) :=
  C4_harvest_execute.1 failHarvestAdapter 3 cHarvest rfl

/- ── C10 ────────────────────────────────────────────────────────────── -/

/-- C10: a harvest invocation with `target_mode = "existing"` but no
(or an empty) target campaign id does not fail validation: it falls back
to the platform auto-create mode against the source campaign (result mode
`"new_campaign"`, same source id); the existing-mode branch runs exactly
when both the mode flag and a truthy target campaign id are present. -/
theorem C10_harvest_mode_fallback :
    (∀ (adp : Adapter) (src : String) (sth : ℚ) (ath : Option ℚ)
        (tgtAg matchTy : Option String) (neg : Bool),
        executeHarvest adp src sth ath "existing" none tgtAg matchTy neg =
          harvestCreateNew adp src sth ath neg
      ∧ executeHarvest adp src sth ath "existing" (some "") tgtAg matchTy neg =
          harvestCreateNew adp src sth ath neg
      ∧ (harvestCreateNew adp src sth ath neg).mode = "new_campaign"
      ∧ (harvestCreateNew adp src sth ath neg).sourceCampaignId = src)
  ∧ (∀ (adp : Adapter) (src : String) (sth : ℚ) (ath : Option ℚ) (tgtId : String)
        (tgtAg matchTy : Option String) (neg : Bool), tgtId ≠ "" →
        executeHarvest adp src sth ath "existing" (some tgtId) tgtAg matchTy neg =
          harvestToExisting adp src tgtId tgtAg sth ath matchTy neg) := by
  constructor
  · intro adp src sth ath tgtAg matchTy neg
    refine ⟨?_, ?_, ?_, ?_⟩
    · simp [executeHarvest, sTruthy]
    · simp [executeHarvest, sTruthy]
    · rcases hcall : adp.createHarvest ⟨src, sth, ath⟩ with e | r <;>
        simp [harvestCreateNew, hcall]
    · rcases hcall : adp.createHarvest ⟨src, sth, ath⟩ with e | r <;>
        simp [harvestCreateNew, hcall]
  · intro adp src sth ath tgtId tgtAg matchTy neg htgt
    simp [executeHarvest, sTruthy, htgt]

set_option maxRecDepth 10000 in
/-- C10 witness: the fallback conjunct on a concrete adapter. -/
theorem C10_harvest_mode_fallback_witness :
    executeHarvest okAdapter "SRC" 1 none "existing" none none none true =
      harvestCreateNew okAdapter "SRC" 1 none true :=
  (C10_harvest_mode_fallback.1 okAdapter "SRC" 1 none none none true).1
